import Mathlib

/-!
# Verification of the berm policy-as-code evaluation engine

Shallow embedding of the rule evaluation engine of the `berm` repository
(`src/berm/`): the property-path resolver and reference/constant graph
extractor (`loaders/terraform.py`), the path-shape validator
(`security.py`), the rule model and its construction-time validators
(`models/rule.py`), the single-resource evaluator (`evaluators/simple.py`)
and the cross-resource evaluator (`evaluators/cross_resource.py`).

Plan values (JSON trees as Python objects) are modelled by the inductive
type `Value`.  Python `None` is `Value.null`; Python numbers are modelled
exactly, with `float` carried as a rational (decimal literals are embedded
exactly; binary rounding of the host float type is not modelled, which is
irrelevant to the claims below since the engine only parses and compares
numbers, never does arithmetic on them).  Python dictionaries are
association lists with string keys, as produced by JSON parsing.
Fallible operations (`int(...)`, `float(...)`, `re.compile(...)`) become
`Option`-returning functions; the `try/except` blocks of the source
become `match` on those options.  `re.compile`/`search` is an explicit
parameter (`RegexOracle`): a compile failure is `none`, mirroring
`re.error`; every theorem about regex behaviour quantifies over the
oracle.
-/

namespace Berm

/-- A Python/JSON value as it appears in a Terraform plan: `None`, `bool`,
`int`, `float` (carried exactly as a rational), `str`, `list`, `dict`
(string-keyed association list). -/
inductive Value where
  | null : Value
  | bool (b : Bool) : Value
  | int (n : Int) : Value
  | float (q : Rat) : Value
  | str (s : String) : Value
  | list (xs : List Value) : Value
  | dict (kvs : List (String × Value)) : Value
deriving Repr, Inhabited

/-- First value bound to `k` in an association list, i.e. Python
`d[k]` / `d.get(k)` for dictionaries (which cannot hold duplicate keys). -/
def lookupStr (kvs : List (String × Value)) (k : String) : Option Value :=
  match kvs with
  | [] => none
  | (k', v) :: rest => if k' = k then some v else lookupStr rest k

/-- Python's numeric view used by `isinstance(x, (int, float))`: `bool` is
a subtype of `int` in Python, so booleans count as numbers (`True` is `1`,
`False` is `0`). -/
def asNum? : Value → Option Rat
  | .bool b => some (if b then 1 else 0)
  | .int n => some (n : Rat)
  | .float q => some q
  | _ => none

mutual

/-- Fueled engine of `pyEq` (structural recursion on the fuel, so that
concrete values evaluate inside the kernel; every recursive step consumes
one unit of fuel while descending at least one structure node, so any
fuel at least `sizeOf a + sizeOf b` — as supplied by `pyEq` — cannot run
out). -/
def pyEqFuel : Nat → Value → Value → Bool
  | 0, _, _ => false
  | fuel + 1, a, b =>
    match a, b with
    | .null, .null => true
    | .str x, .str y => x = y
    | .list xs, .list ys => pyEqListFuel fuel xs ys
    | .dict xs, .dict ys => xs.length = ys.length && pyEqDictFuel fuel xs ys
    | a, b =>
      match asNum? a, asNum? b with
      | some x, some y => x = y
      | _, _ => false

/-- Pointwise Python `==` on lists (fueled). -/
def pyEqListFuel : Nat → List Value → List Value → Bool
  | 0, _, _ => false
  | _ + 1, [], [] => true
  | fuel + 1, a :: as_, b :: bs => pyEqFuel fuel a b && pyEqListFuel fuel as_ bs
  | _ + 1, _, _ => false

/-- Every key of the first dict is bound in the second to an equal value
(fueled). -/
def pyEqDictFuel : Nat → List (String × Value) → List (String × Value) → Bool
  | 0, _, _ => false
  | _ + 1, [], _ => true
  | fuel + 1, (k, v) :: rest, b => pyEqLookupFuel fuel k v b && pyEqDictFuel fuel rest b

/-- The key is bound in the dict to an equal value (fueled). -/
def pyEqLookupFuel : Nat → String → Value → List (String × Value) → Bool
  | 0, _, _, _ => false
  | _ + 1, _, _, [] => false
  | fuel + 1, k, v, (k', w) :: rest =>
    if k' = k then pyEqFuel fuel v w else pyEqLookupFuel fuel k v rest

end

mutual

/-- Number of structure nodes of a value — the fuel bound for `pyEq`. -/
def valueSize : Value → Nat
  | .list xs => valueListSize xs + 1
  | .dict kvs => valueDictSize kvs + 1
  | _ => 1

/-- Node count of a list of values. -/
def valueListSize : List Value → Nat
  | [] => 1
  | x :: rest => valueSize x + valueListSize rest + 1

/-- Node count of an association list of values. -/
def valueDictSize : List (String × Value) → Nat
  | [] => 1
  | (_, v) :: rest => valueSize v + valueDictSize rest + 1

end

/-- Python `==` on embedded values: `None == None`; strings by content;
numbers (including `bool`) by numeric value; lists pointwise; dicts by key
set and pointwise value equality; everything else unequal. -/
def pyEq (a b : Value) : Bool :=
  pyEqFuel (valueSize a + valueSize b) a b

/-- Python truthiness (`bool(x)`): `None`, `False`, zero, empty string,
empty list and empty dict are falsy. -/
def pyTruthy : Value → Bool
  | .null => false
  | .bool b => b
  | .int n => n ≠ 0
  | .float q => q ≠ 0
  | .str s => s ≠ ""
  | .list xs => !xs.isEmpty
  | .dict kvs => !kvs.isEmpty

/-- Decimal digits to a natural number. -/
def digitsToNat (ds : List Char) : Nat :=
  ds.foldl (fun a c => a * 10 + (c.toNat - 48)) 0

/-- Python whitespace, as stripped by `int(...)`/`float(...)`. -/
def pySpaceChar (c : Char) : Bool :=
  c = ' ' || c = '\t' || c = '\n' || c = '\r' || c = '\x0b' || c = '\x0c'

/-- Python `s.strip()` on the character list (structurally recursive, so
that concrete strings evaluate inside the kernel). -/
def pyStrip (s : String) : List Char :=
  ((s.data.dropWhile pySpaceChar).reverse.dropWhile pySpaceChar).reverse

/-- Accumulator loop of `splitOnDot`. -/
def splitOnDotAux : List Char → List Char → List String
  | [], acc => [String.mk acc.reverse]
  | c :: rest, acc =>
    if c = '.' then String.mk acc.reverse :: splitOnDotAux rest []
    else splitOnDotAux rest (c :: acc)

/-- Python `s.split(".")` (structurally recursive on the character
list): `""` splits to `[""]`, and consecutive dots produce empty
segments. -/
def splitOnDot (s : String) : List String :=
  splitOnDotAux s.data []

/-- Python `".".join(parts)`. -/
def joinDot : List String → String
  | [] => ""
  | [s] => s
  | s :: rest => s ++ "." ++ joinDot rest

/-- Python `int(s)` on a string: optional surrounding whitespace, optional
sign, at least one decimal digit.  `none` models `ValueError`. -/
def pyInt (s : String) : Option Int :=
  let t := pyStrip s
  let (neg, ds) :=
    match t with
    | '-' :: rest => (true, rest)
    | '+' :: rest => (false, rest)
    | _ => (false, t)
  if ds ≠ [] ∧ ds.all Char.isDigit then
    some (if neg then -(digitsToNat ds : Int) else (digitsToNat ds : Int))
  else none

/-- Scale a rational by a signed power of ten (built with `mkRat` and
integer arithmetic, which evaluate inside the kernel). -/
def ratScale10 (q : Rat) (e : Int) : Rat :=
  if 0 ≤ e then mkRat (q.num * (10 : Int) ^ e.toNat) q.den
  else mkRat q.num (q.den * 10 ^ (-e).toNat)

/-- Python `float(s)` on a string: optional surrounding whitespace,
optional sign, decimal digits with an optional fractional part (at least
one digit overall) and an optional exponent.  `none` models `ValueError`. -/
def pyFloatStr (s : String) : Option Rat :=
  let t := pyStrip s
  let (neg, t1) :=
    match t with
    | '-' :: rest => (true, rest)
    | '+' :: rest => (false, rest)
    | _ => (false, t)
  let intPart := t1.takeWhile Char.isDigit
  let t2 := t1.dropWhile Char.isDigit
  let (fracPart, t3) :=
    match t2 with
    | '.' :: rest => (rest.takeWhile Char.isDigit, rest.dropWhile Char.isDigit)
    | _ => ([], t2)
  if intPart = [] ∧ fracPart = [] then none
  else
    let mantissa : Rat :=
      ratScale10 (digitsToNat (intPart ++ fracPart) : Rat) (-(fracPart.length : Int))
    let signed := if neg then -mantissa else mantissa
    match t3 with
    | [] => some signed
    | e :: rest =>
      if e = 'e' ∨ e = 'E' then
        let (eneg, rest1) :=
          match rest with
          | '-' :: r => (true, r)
          | '+' :: r => (false, r)
          | _ => (false, rest)
        if rest1 ≠ [] ∧ rest1.all Char.isDigit then
          let ex : Int := if eneg then -(digitsToNat rest1 : Int) else (digitsToNat rest1 : Int)
          some (ratScale10 signed ex)
        else none
      else none

/-- Python `float(x)`: numbers (including `bool`) convert directly,
strings are parsed, everything else raises `TypeError` (`none`). -/
def pyFloat : Value → Option Rat
  | .str s => pyFloatStr s
  | v => asNum? v

mutual

/-- Python `repr` of a value (quotes around strings, used when printing
elements of lists and dicts).  String escaping inside quotes is not
modelled; no claim depends on it. -/
def pyRepr : Value → String
  | .null => "None"
  | .bool b => if b then "True" else "False"
  | .int n => toString n
  | .float q => if q.den = 1 then toString q.num ++ ".0" else toString q
  | .str s => "'" ++ s ++ "'"
  | .list xs => "[" ++ pyReprList xs ++ "]"
  | .dict kvs => "\x7b" ++ pyReprDict kvs ++ "\x7d"

/-- Comma-separated `repr`s of the elements of a list. -/
def pyReprList : List Value → String
  | [] => ""
  | [x] => pyRepr x
  | x :: rest => pyRepr x ++ ", " ++ pyReprList rest

/-- Comma-separated `'key': repr` pairs of a dict. -/
def pyReprDict : List (String × Value) → String
  | [] => ""
  | [(k, v)] => "'" ++ k ++ "': " ++ pyRepr v
  | (k, v) :: rest => "'" ++ k ++ "': " ++ pyRepr v ++ ", " ++ pyReprDict rest

end

/-- Python `str(x)`: identity on strings, `repr`-like rendering
otherwise. -/
def pyStr : Value → String
  | .str s => s
  | v => pyRepr v

/-- Substring test (`needle in hay` for Python strings). -/
def strContains (hay needle : String) : Bool :=
  decide (needle.data <:+: hay.data)

/-! ## `security.py`: property-path shape validation -/

/-- `MAX_PROPERTY_DEPTH` of `security.py`. -/
def MAX_PROPERTY_DEPTH : Nat := 20

/-- `MAX_ARRAY_INDEX` of `security.py`. -/
def MAX_ARRAY_INDEX : Int := 100

/-- `security.validate_property_path`, as a Boolean (`false` models the
raised `ValueError`/`SecurityError`, which every caller in the engine
catches): the path must be non-empty, at most 1000 characters, split on
`.` into at most 20 segments, with no empty segment and no NUL/newline/
carriage-return character in any segment. -/
def validate_property_path (path : String) : Bool :=
  if path = "" then false
  else if 1000 < path.length then false
  else
    let parts := splitOnDot path
    if MAX_PROPERTY_DEPTH < parts.length then false
    else parts.all fun part =>
      part ≠ "" && !part.data.any (fun c => c = '\x00' ∨ c = '\n' ∨ c = '\r')

/-! ## `loaders/terraform.py`: property-path resolution -/

/-- The traversal loop of `terraform.get_nested_property` (`for part in
parts`).  At each step: a `None` current value stops with `None`; a list
is indexed by parsing the segment as an integer, rejecting negative
indices, indices `≥ MAX_ARRAY_INDEX` and indices `≥ len`; a dict is
looked up by key with `None` for a missing key; any scalar stops with
`None`.  Python `None` is `Value.null` — the same value that a
legitimately-present null resolves to. -/
def get_nested_property_loop : Value → List String → Value
  | cur, [] => cur
  | .null, _ :: _ => .null
  | .list xs, part :: rest =>
    match pyInt part with
    | none => .null
    | some i =>
      if i < 0 ∨ MAX_ARRAY_INDEX ≤ i then .null
      else if h : i.toNat < xs.length then get_nested_property_loop (xs.get ⟨i.toNat, h⟩) rest
      else .null
  | .dict kvs, part :: rest => get_nested_property_loop ((lookupStr kvs part).getD .null) rest
  | _, _ :: _ => .null

/-- `terraform.get_nested_property`: returns `Value.null` (Python `None`)
for an empty object, an empty path, a path rejected by
`validate_property_path`, and any traversal miss — and also when the path
resolves to a legitimately-present null. -/
def get_nested_property (obj : List (String × Value)) (path : String) : Value :=
  if obj.isEmpty || path = "" then .null
  else if !validate_property_path path then .null
  else get_nested_property_loop (.dict obj) (splitOnDot path)

/-! ## `loaders/terraform.py`: reference/constant graph extraction -/

/-- `terraform._extract_address_from_reference`: strip trailing attribute
segments, keeping the first two dot-separated segments, or the first four
for `module.`-qualified references (returning the whole reference when a
module reference has fewer than four segments); references with fewer
than two segments yield `""` (no edge). -/
def extract_address_from_reference (reference : String) : String :=
  if reference = "" then ""
  else
    let parts := splitOnDot reference
    if parts.length < 2 then ""
    else if parts.headD "" = "module" then
      if 4 ≤ parts.length then joinDot (parts.take 4)
      else reference
    else joinDot (parts.take 2)

/-- The reference map: referenced address → dependent addresses, as an
insertion-ordered association list (a Python dict of lists). -/
abbrev RefMap := List (String × List String)

/-- Dependents recorded for an address (empty when absent). -/
def ref_lookup (m : RefMap) (k : String) : List String :=
  match m with
  | [] => []
  | (k', v) :: rest => if k' = k then v else ref_lookup rest k

/-- Whether an address has an entry (`target_address in reference_map`). -/
def ref_has_key (m : RefMap) (k : String) : Bool :=
  match m with
  | [] => false
  | (k', _) :: rest => k' = k || ref_has_key rest k

/-- Append `dep` to the entry of `target` (creating it if missing), but
only if not already present — the deduplicated edge insertion of
`_extract_references_from_expressions`. -/
def add_edge (m : RefMap) (target dep : String) : RefMap :=
  match m with
  | [] => [(target, [dep])]
  | (k, v) :: rest =>
    if k = target then
      if dep ∈ v then (k, v) :: rest else (k, v ++ [dep]) :: rest
    else (k, v) :: add_edge rest target dep

/-- One reference string of a `"references"` array: non-strings are
skipped, the reference is normalized and, when the normalized address is
non-empty, a deduplicated edge to the dependent is recorded. -/
def add_reference (dep : String) (m : RefMap) (rv : Value) : RefMap :=
  match rv with
  | .str ref =>
    if extract_address_from_reference ref ≠ "" then
      add_edge m (extract_address_from_reference ref) dep
    else m
  | _ => m

mutual

/-- The loop of `terraform._extract_references_from_expressions` over the
items of an expressions dict. -/
def extract_references_from_expressions (dep : String) : List (String × Value) → RefMap → RefMap
  | [], m => m
  | (_, v) :: rest, m => extract_references_from_expressions dep rest (extract_references_from_value dep v m)

/-- One expression value: a dict first contributes the edges of its
`"references"` array (when it is a list), then is recursed into; a list
is walked item by item; scalars contribute nothing. -/
def extract_references_from_value (dep : String) : Value → RefMap → RefMap
  | .dict kvs, m =>
    let m1 :=
      match lookupStr kvs "references" with
      | some (.list refs) => refs.foldl (add_reference dep) m
      | _ => m
    extract_references_from_expressions dep kvs m1
  | .list items, m => extract_references_from_items dep items m
  | _, m => m

/-- List items of an expression: only dict items are recursed into
(`for item in value: if isinstance(item, dict): ...`). -/
def extract_references_from_items (dep : String) : List Value → RefMap → RefMap
  | [], m => m
  | item :: rest, m =>
    let m1 :=
      match item with
      | .dict kvs => extract_references_from_expressions dep kvs m
      | _ => m
    extract_references_from_items dep rest m1

end

/-- The navigation shared by both extractors:
`plan["configuration"]["root_module"]["resources"]`, each `.get` defaulting
and each level checked with `isinstance`; returns the resource list (empty
on any shape mismatch). -/
def config_resources (plan : List (String × Value)) : List Value :=
  match (lookupStr plan "configuration").getD (.dict []) with
  | .dict cfg =>
    match (lookupStr cfg "root_module").getD (.dict []) with
    | .dict rm =>
      match (lookupStr rm "resources").getD (.list []) with
      | .list rs => rs
      | _ => []
    | _ => []
  | _ => []

/-- `terraform.extract_resource_references`: walk every configured
resource's `expressions` dict, recording edges from each referenced
address to the dependent resource's address.  Resources that are not
dicts, have a falsy address or a non-dict `expressions` entry are
skipped.  Plan addresses are JSON strings, so a truthy address is a
non-empty string. -/
def extract_resource_references (plan : List (String × Value)) : RefMap :=
  (config_resources plan).foldl
    (fun m r =>
      match r with
      | .dict kvs =>
        match lookupStr kvs "address" with
        | some (.str a) =>
          if a = "" then m
          else
            match (lookupStr kvs "expressions").getD (.dict []) with
            | .dict exprs => extract_references_from_expressions a exprs m
            | _ => m
        | _ => m
      | _ => m)
    []

/-- The per-resource constant extraction of
`terraform.extract_constant_values`: only top-level expression entries
that are dicts carrying a `"constant_value"` key are recorded; the walk
does not descend into list-valued entries. -/
def extract_constants_from_expressions (exprs : List (String × Value)) :
    List (String × Value) :=
  exprs.filterMap fun kv =>
    match kv.2 with
    | .dict inner =>
      match lookupStr inner "constant_value" with
      | some c => some (kv.1, c)
      | none => none
    | _ => none

/-- The constant map: resource address → property key → constant value. -/
abbrev ConstMap := List (String × List (String × Value))

/-- `constant_map[address] = constants` — Python dict assignment: replace
the existing binding or append a new one. -/
def const_set (m : ConstMap) (k : String) (v : List (String × Value)) : ConstMap :=
  match m with
  | [] => [(k, v)]
  | (k', v') :: rest =>
    if k' = k then (k, v) :: rest else (k', v') :: const_set rest k v

/-- Binding of an address in the constant map. -/
def const_lookup (m : ConstMap) (k : String) : Option (List (String × Value)) :=
  match m with
  | [] => none
  | (k', v) :: rest => if k' = k then some v else const_lookup rest k

/-- `terraform.extract_constant_values`: record each resource's non-empty
top-level constants under its address. -/
def extract_constant_values (plan : List (String × Value)) : ConstMap :=
  (config_resources plan).foldl
    (fun m r =>
      match r with
      | .dict kvs =>
        match lookupStr kvs "address" with
        | some (.str a) =>
          if a = "" then m
          else
            match (lookupStr kvs "expressions").getD (.dict []) with
            | .dict exprs =>
              let constants := extract_constants_from_expressions exprs
              if constants.isEmpty then m else const_set m a constants
            | _ => m
        | _ => m
      | _ => m)
    []

/-! ## `models/rule.py`: the rule model and its validators -/

/-- `models.rule.RequiredResource` (after pydantic field parsing):
`relationship` is one of the three literals, validated eagerly below. -/
structure RequiredResource where
  resource_type : String
  relationship : String
  reference_property : Option String := none
  min_count : Nat := 1
  max_count : Option Nat := none
  conditions : Option (List (String × Value)) := none
  message_suffix : Option String := none
deriving Repr, Inhabited

/-- `models.rule.Rule` (after pydantic field parsing).  `in_list` is the
`in` field; numeric thresholds are `int | float`, both carried as `Rat`. -/
structure Rule where
  id : String
  name : String
  resource_type : Option String := none
  resource_types : Option (List String) := none
  severity : String
  property : Option String := none
  resource_forbidden : Option Bool := none
  equals : Option Value := none
  greater_than : Option Rat := none
  greater_than_or_equal : Option Rat := none
  less_than : Option Rat := none
  less_than_or_equal : Option Rat := none
  contains : Option String := none
  in_list : Option (List Value) := none
  regex_match : Option String := none
  has_keys : Option (List String) := none
  is_not_empty : Option Bool := none
  requires_resources : Option (List RequiredResource) := none
  message : String
deriving Repr, Inhabited

/-- `RequiredResource.validate_reference_property_required`. -/
def validate_reference_property_required (r : RequiredResource) : Except String Unit :=
  if r.relationship = "references_primary" ∨ r.relationship = "referenced_by_primary" then
    if r.reference_property = none then
      .error ("reference_property is required for '" ++ r.relationship ++ "' relationship")
    else .ok ()
  else .ok ()

/-- `RequiredResource.validate_count_range`. -/
def validate_count_range (r : RequiredResource) : Except String Unit :=
  match r.max_count with
  | some mx => if mx < r.min_count then .error "max_count must be >= min_count" else .ok ()
  | none => .ok ()

/-- `Rule.validate_resource_type_exclusivity`: exactly one of
`resource_type`/`resource_types`, the latter non-empty and
duplicate-free. -/
def validate_resource_type_exclusivity (r : Rule) : Except String Unit :=
  let hasSingle := r.resource_type.isSome
  let hasMultiple := r.resource_types.isSome
  if !hasSingle && !hasMultiple then
    .error "Rule must specify either 'resource_type' (single) or 'resource_types' (multiple)"
  else if hasSingle && hasMultiple then
    .error "Rule cannot specify both 'resource_type' and 'resource_types'. Use one or the other."
  else
    match r.resource_types with
    | some ts =>
      if ts.length = 0 then .error "resource_types must contain at least one resource type"
      else if ts.length ≠ ts.dedup.length then .error "resource_types contains duplicate entries"
      else .ok ()
    | none => .ok ()

/-- The eight comparison-operator presence flags tested inside the
`resource_forbidden` branch of `Rule.validate_comparison_operator` —
the source omits `has_keys` and `is_not_empty` from this list. -/
def forbidden_branch_ops (r : Rule) : List Bool :=
  [r.equals.isSome, r.greater_than.isSome, r.greater_than_or_equal.isSome,
   r.less_than.isSome, r.less_than_or_equal.isSome, r.contains.isSome,
   r.in_list.isSome, r.regex_match.isSome]

/-- All ten comparison-operator presence flags, as tested in the pure
cross-resource branch and in the final operator count. -/
def all_comparator_ops (r : Rule) : List Bool :=
  [r.equals.isSome, r.greater_than.isSome, r.greater_than_or_equal.isSome,
   r.less_than.isSome, r.less_than_or_equal.isSome, r.contains.isSome,
   r.in_list.isSome, r.regex_match.isSome, r.has_keys.isSome,
   r.is_not_empty.isSome]

/-- `Rule.validate_comparison_operator`, translated branch by branch:
the `resource_forbidden is True` branch rejects a property, any of the
*eight* operators of `forbidden_branch_ops` and `requires_resources`; the
pure cross-resource branch rejects all ten operators; property-based
rules need exactly one of the ten. -/
def validate_comparison_operator (r : Rule) : Except String Unit :=
  if r.resource_forbidden = some true then
    if r.property.isSome then
      .error "resource_forbidden rules should not specify a property"
    else if (forbidden_branch_ops r).any id then
      .error "resource_forbidden rules should not specify comparison operators"
    else if r.requires_resources.isSome then
      .error "resource_forbidden rules cannot specify requires_resources"
    else .ok ()
  else if (match r.requires_resources with
           | some l => decide (0 < l.length)
           | none => false) && r.property.isNone then
    if (all_comparator_ops r).any id then
      .error "Cross-resource rules without property should not specify comparison operators"
    else .ok ()
  else if r.property = none then
    .error "Rules must specify either a property to check, resource_forbidden, or requires_resources"
  else
    let specified := ((all_comparator_ops r).filter id).length
    if specified = 0 then
      .error "Rule must specify exactly one comparison operator"
    else if 1 < specified then
      .error "Rule must specify only one comparison operator, found multiple"
    else .ok ()

/-- Rule construction: pydantic runs the `property` field validator
(`validate_property_path`, whose failure is re-raised as a `ValueError`)
and then the two model validators in definition order.  Field parsing of
literals/lengths (severity literal, `min_length=1` strings) is assumed to
have succeeded, as it has for every input considered here. -/
def rule_construct (r : Rule) : Except String Rule := do
  match r.property with
  | some p => if !validate_property_path p then throw "Invalid property path" else pure ()
  | none => pure ()
  let _ ← validate_resource_type_exclusivity r
  let _ ← validate_comparison_operator r
  pure r

/-! ## `security.sanitize_for_output` and `Rule.format_message` -/

/-- Fueled loop of `listReplace` (structural recursion on the fuel, so
that concrete strings evaluate inside the kernel; the one unit of fuel
spent per emitted character makes `s.length` sufficient fuel). -/
def listReplaceAux (pattern repl : List Char) : Nat → List Char → List Char
  | _, [] => []
  | 0, l => l
  | fuel + 1, c :: rest =>
    if pattern ≠ [] ∧ pattern.isPrefixOf (c :: rest) then
      repl ++ listReplaceAux pattern repl fuel ((c :: rest).drop pattern.length)
    else c :: listReplaceAux pattern repl fuel rest

/-- Left-to-right non-overlapping replacement on character lists — the
semantics of Python `str.replace` for a non-empty pattern. -/
def listReplace (pattern repl s : List Char) : List Char :=
  listReplaceAux pattern repl s.length s

/-- Python `s.replace(pattern, repl)` for the non-empty patterns used by
the engine. -/
def pyStringReplace (s pattern repl : String) : String :=
  String.mk (listReplace pattern.data repl.data s.data)

/-- Fueled left-to-right scan of `re.sub` for the ANSI pattern
`\x1b\[[0-9;]*m`: a match (`ESC [` digits/semicolons `m`) is dropped and
the scan resumes after it; a failed candidate emits the `ESC` and resumes
at the following character, exactly as the regex engine advances by one
position.  Structural recursion on the fuel; each step consumes at least
one input character, so `l.length` fuel — as supplied by `stripAnsi` —
cannot run out. -/
def stripAnsiFuel : Nat → List Char → List Char
  | 0, l => l
  | _ + 1, [] => []
  | fuel + 1, '\x1b' :: '[' :: rest =>
    (match rest.dropWhile (fun c => c.isDigit || c = ';') with
     | 'm' :: rest2 => stripAnsiFuel fuel rest2
     | _ => '\x1b' :: stripAnsiFuel fuel ('[' :: rest))
  | fuel + 1, c :: rest => c :: stripAnsiFuel fuel rest

/-- `re.sub` of the ANSI escape pattern with the empty string. -/
def stripAnsi (l : List Char) : List Char :=
  stripAnsiFuel l.length l

/-- `security.sanitize_for_output`: ANSI-escape removal, control-character
removal (keeping tab and space, dropping DEL), the GitHub `::` break, and
truncation at 10000 characters. -/
def sanitize_for_output (text : String) (context : String) : String :=
  if text = "" then text
  else
    let s1 := String.mk (stripAnsi text.data)
    let s2 := String.mk (s1.data.filter fun c =>
      !(c.toNat < 32 && c.toNat ≠ 9) && c.toNat ≠ 127)
    let s3 := if context = "github" then pyStringReplace s2 "::" ":​:" else s2
    if 10000 < s3.length then (s3.take 10000) ++ "... (truncated)" else s3

/-- `Rule.format_message`: replace the `\x7b\x7bresource_name\x7d\x7d`
placeholder with the sanitized resource name. -/
def format_message (r : Rule) (resourceName : String)
    (outputContext : String := "terminal") : String :=
  pyStringReplace r.message "\x7b\x7bresource_name\x7d\x7d"
    (sanitize_for_output resourceName outputContext)

/-! ## `models/violation.py` and normalized resources -/

/-- `models.violation.Violation`. -/
structure Violation where
  rule_id : String
  rule_name : String
  resource_name : String
  resource_type : String
  severity : String
  message : String
  location : Option String := none
deriving Repr, Inhabited, DecidableEq

/-- A normalized resource as produced by `load_terraform_plan`: the four
keys are always present (the loader constructs them). -/
structure Resource where
  address : String
  type : String
  name : String
  values : List (String × Value)
deriving Repr, Inhabited

/-- Python `==` on two normalized resources (dict equality over the four
keys), used by the `candidate not in matches` deduplication of the
cross-resource evaluator. -/
def resource_eq (a b : Resource) : Bool :=
  a.address = b.address && a.type = b.type && a.name = b.name &&
    pyEq (.dict a.values) (.dict b.values)

/-! ## `evaluators/simple.py`: the single-resource evaluator

`re.compile`/`search` is abstracted as an oracle: `none` for a pattern
models `re.error` on compile; `some m` gives the unanchored search
predicate of the compiled pattern. -/

/-- A model of Python's `re` module: compile a pattern to an unanchored
search predicate, or fail. -/
abbrev RegexOracle := String → Option (String → Bool)

/-- ASCII lower-casing of one character (a literal table, so that
concrete strings evaluate inside the kernel). -/
def charLower : Char → Char
  | 'A' => 'a'
  | 'B' => 'b'
  | 'C' => 'c'
  | 'D' => 'd'
  | 'E' => 'e'
  | 'F' => 'f'
  | 'G' => 'g'
  | 'H' => 'h'
  | 'I' => 'i'
  | 'J' => 'j'
  | 'K' => 'k'
  | 'L' => 'l'
  | 'M' => 'm'
  | 'N' => 'n'
  | 'O' => 'o'
  | 'P' => 'p'
  | 'Q' => 'q'
  | 'R' => 'r'
  | 'S' => 's'
  | 'T' => 't'
  | 'U' => 'u'
  | 'V' => 'v'
  | 'W' => 'w'
  | 'X' => 'x'
  | 'Y' => 'y'
  | 'Z' => 'z'
  | c => c

/-- ASCII `str.lower()` (the coercion table below only compares against
ASCII words). -/
def pyLower (s : String) : String :=
  String.mk (s.data.map charLower)

/-- The boolean↔string coercion table of `_check_equals`:
`"true"/"yes"/"1"` match `True` and `"false"/"no"/"0"` match `False`,
case-insensitively. -/
def bool_str_table (b : Bool) (s : String) : Bool :=
  if b then pyLower s = "true" || pyLower s = "yes" || pyLower s = "1"
  else pyLower s = "false" || pyLower s = "no" || pyLower s = "0"

/-- Branch 2 of `_check_equals` (lines 186–190): boolean expected value
against a string actual in the coercion table. -/
def equals_bool_str_expected (actual expected : Value) : Bool :=
  match expected, actual with
  | .bool b, .str s => bool_str_table b s
  | _, _ => false

/-- Branch 3 of `_check_equals` (lines 192–196): boolean actual value
against a string expected value in the coercion table. -/
def equals_bool_str_actual (actual expected : Value) : Bool :=
  match actual, expected with
  | .bool b, .str s => bool_str_table b s
  | _, _ => false

/-- Branches 4–5 of `_check_equals` (lines 198–209): a numeric value under
`num?` on one side and a string on the other, equal after float-parsing
the string (a failed parse is the `except: pass` fall-through to
`False`).  The two orientations are mutually exclusive, so the sequential
source checks amount to this single dispatch.  The source's
`isinstance(x, (int, float))` is `asNum?`, which includes booleans; the
spec's reading of "numeric" is `strictNum?`. -/
def equals_numeric_str (num? : Value → Option Rat) (actual expected : Value) :
    Bool :=
  match num? expected, actual with
  | some q, .str s =>
    (match pyFloatStr s with
     | some x => decide (x = q)
     | none => false)
  | _, _ =>
    match num? actual, expected with
    | some q, .str s =>
      (match pyFloatStr s with
       | some y => decide (q = y)
       | none => false)
    | _, _ => false

/-- `SimpleEvaluator._check_equals`: direct Python equality, then the
boolean↔string coercion table (both orientations), then
numeric↔numeric-string coercion via float parsing (where
`isinstance(x, (int, float))` includes booleans).  A failed float parse
inside a coercion branch falls through (`except: pass`), ending in
`False`. -/
def check_equals (actual expected : Value) : Bool :=
  if pyEq actual expected then true
  else if equals_bool_str_expected actual expected then true
  else if equals_bool_str_actual actual expected then true
  else equals_numeric_str asNum? actual expected

/-- `SimpleEvaluator._check_numeric_comparison`: `float(actual)` compared
with the threshold, `False` on a failed conversion. -/
def check_numeric_comparison (actual : Value) (expected : Rat)
    (op : Rat → Rat → Bool) : Bool :=
  match pyFloat actual with
  | some x => op x expected
  | none => false

/-- `SimpleEvaluator._check_greater_than`. -/
def check_greater_than (actual : Value) (expected : Rat) : Bool :=
  check_numeric_comparison actual expected (fun a b => decide (b < a))

/-- `SimpleEvaluator._check_greater_than_or_equal`. -/
def check_greater_than_or_equal (actual : Value) (expected : Rat) : Bool :=
  check_numeric_comparison actual expected (fun a b => decide (b ≤ a))

/-- `SimpleEvaluator._check_less_than`. -/
def check_less_than (actual : Value) (expected : Rat) : Bool :=
  check_numeric_comparison actual expected (fun a b => decide (a < b))

/-- `SimpleEvaluator._check_less_than_or_equal`. -/
def check_less_than_or_equal (actual : Value) (expected : Rat) : Bool :=
  check_numeric_comparison actual expected (fun a b => decide (a ≤ b))

/-- `SimpleEvaluator._check_contains`: substring for strings, membership
(Python `==`) for lists, substring of `str(actual)` otherwise. -/
def check_contains (actual : Value) (expected : String) : Bool :=
  match actual with
  | .str s => strContains s expected
  | .list xs => xs.any fun v => pyEq (.str expected) v
  | v => strContains (pyStr v) expected

/-- `SimpleEvaluator._check_in_list`: direct membership, then per-element
coerced equality via `_check_equals`. -/
def check_in_list (actual : Value) (expectedList : List Value) : Bool :=
  if expectedList.any (fun e => pyEq actual e) then true
  else expectedList.any fun e => check_equals actual e

/-- `SimpleEvaluator._check_regex_match`: stringify the actual value,
compile the pattern and search; a compile failure is `False`. -/
def check_regex_match (re : RegexOracle) (actual : Value) (pattern : String) : Bool :=
  let actualStr := match actual with | .str s => s | v => pyStr v
  match re pattern with
  | none => false
  | some search => search actualStr

/-- `SimpleEvaluator._check_has_keys`: the actual value must be a dict
whose key set includes every required key; non-dicts fail. -/
def check_has_keys (actual : Value) (requiredKeys : List String) : Bool :=
  match actual with
  | .dict kvs => requiredKeys.all fun k => kvs.any fun kv => kv.1 = k
  | _ => false

/-- `SimpleEvaluator._check_is_not_empty`: `None` fails; values with a
length concept (string, list, dict) need nonzero length; any other
scalar passes. -/
def check_is_not_empty (actual : Value) : Bool :=
  match actual with
  | .null => false
  | .str s => 0 < s.length
  | .list xs => 0 < xs.length
  | .dict kvs => 0 < kvs.length
  | _ => true

/-- The operator dispatch chain of `SimpleEvaluator._check_resource`
(lines 116–152): the first present operator field is evaluated, paired
with its `operator_desc` string; no operator present yields
`(false, "unknown")`. -/
def comparator_check (re : RegexOracle) (rule : Rule) (actual : Value) :
    Bool × String :=
  match rule.equals with
  | some e => (check_equals actual e, "equals '" ++ pyStr e ++ "'")
  | none =>
  match rule.greater_than with
  | some g => (check_greater_than actual g, "> " ++ pyStr (.float g))
  | none =>
  match rule.greater_than_or_equal with
  | some g => (check_greater_than_or_equal actual g, ">= " ++ pyStr (.float g))
  | none =>
  match rule.less_than with
  | some l => (check_less_than actual l, "< " ++ pyStr (.float l))
  | none =>
  match rule.less_than_or_equal with
  | some l => (check_less_than_or_equal actual l, "<= " ++ pyStr (.float l))
  | none =>
  match rule.contains with
  | some c => (check_contains actual c, "contains '" ++ c ++ "'")
  | none =>
  match rule.in_list with
  | some xs => (check_in_list actual xs, "in " ++ pyStr (.list xs))
  | none =>
  match rule.regex_match with
  | some p => (check_regex_match re actual p, "matches pattern '" ++ p ++ "'")
  | none =>
  match rule.has_keys with
  | some ks => (check_has_keys actual ks, "has keys " ++ pyStr (.list (ks.map .str)))
  | none =>
  match rule.is_not_empty with
  | some _ => (check_is_not_empty actual, "is not empty")
  | none => (false, "unknown")

/-- `get_nested_property(values, rule.property)` with an optional path:
Python passes `rule.property` directly, and a `None` path hits the
`not path` guard, returning `None`. -/
def get_nested_property_opt (obj : List (String × Value)) : Option String → Value
  | none => .null
  | some p => get_nested_property obj p

/-- `SimpleEvaluator._check_resource`: forbidden-resource rules violate
unconditionally; a `None` resolved value (absent *or* legitimately-present
null) yields a "property not found" violation; otherwise the dispatched
comparator decides, a failure carrying the operator description and the
actual value in the message. -/
def check_resource (re : RegexOracle) (rule : Rule) (resource : Resource) :
    Option Violation :=
  let message := format_message rule resource.address "terminal"
  if rule.resource_forbidden = some true then
    some { rule_id := rule.id, rule_name := rule.name,
           resource_name := resource.address, resource_type := resource.type,
           severity := rule.severity, message := message }
  else
    let actual := get_nested_property_opt resource.values rule.property
    match actual with
    | .null =>
      some { rule_id := rule.id, rule_name := rule.name,
             resource_name := resource.address, resource_type := resource.type,
             severity := rule.severity,
             message := message ++ " (property '" ++ rule.property.getD "None"
               ++ "' not found)" }
    | _ =>
      let passes := (comparator_check re rule actual).1
      let operatorDesc := (comparator_check re rule actual).2
      if !passes then
        some { rule_id := rule.id, rule_name := rule.name,
               resource_name := resource.address, resource_type := resource.type,
               severity := rule.severity,
               message := message ++ " (expected " ++ operatorDesc ++ ", got '"
                 ++ pyStr actual ++ "')" }
      else none

/-- The type filter of `SimpleEvaluator.evaluate`: resources matching
`resource_type`, or any member of `resource_types`; none set (impossible
after validation) matches nothing. -/
def matching_resources (rule : Rule) (resources : List Resource) : List Resource :=
  match rule.resource_type with
  | some t => resources.filter fun r => r.type = t
  | none =>
    match rule.resource_types with
    | some ts => resources.filter fun r => ts.contains r.type
    | none => []

/-- The accumulation loop of `SimpleEvaluator.evaluate`: append the
violation of each matching resource in order. -/
def evaluate_loop (re : RegexOracle) (rule : Rule) : List Resource → List Violation
  | [] => []
  | r :: rest =>
    match check_resource re rule r with
    | some v => v :: evaluate_loop re rule rest
    | none => evaluate_loop re rule rest

/-- `SimpleEvaluator.evaluate`: skip rules with no property and no truthy
`resource_forbidden`, filter by type, check each matching resource. -/
def evaluate (re : RegexOracle) (rule : Rule) (resources : List Resource) :
    List Violation :=
  if rule.property.isNone && !(rule.resource_forbidden.getD false) then []
  else evaluate_loop re rule (matching_resources rule resources)

/-! ## `evaluators/cross_resource.py`: the cross-resource evaluator -/

/-- `index["by_type"].get(t, [])` of the index built by
`_build_resource_index`: resources of type `t` in input order (resources
with an empty type are never indexed). -/
def by_type (resources : List Resource) (t : String) : List Resource :=
  resources.filter fun r => r.type ≠ "" && r.type = t

/-- `index["by_address"].get(a)`: the last resource with (non-empty)
address `a` (later dict assignments overwrite earlier ones). -/
def by_address (resources : List Resource) (a : String) : Option Resource :=
  if a = "" then none
  else (resources.filter fun r => r.address = a).getLast?

/-- `CrossResourceEvaluator._get_resource_identifier`: the first truthy
string among the `bucket`/`id`/`name`/`identifier`/`arn` values, else the
resource address. -/
def get_resource_identifier (resource : Resource) : String :=
  let fromProp : String → Option String := fun prop =>
    match lookupStr resource.values prop with
    | some (.str s) => if s ≠ "" then some s else none
    | _ => none
  ((["bucket", "id", "name", "identifier", "arn"].filterMap fromProp).head?).getD
    resource.address

/-- `CrossResourceEvaluator._matches_identifier`: string reference values
match the primary's identifier, its address, or any string containing the
address. -/
def matches_identifier (refValue : Value) (primaryId primaryAddress : String) :
    Bool :=
  match refValue with
  | .str s => s = primaryId || s = primaryAddress || strContains s primaryAddress
  | _ => false

/-- `CrossResourceEvaluator._find_by_referenced_by_primary`: dependents of
the primary's address in the reference map (filtered to the required
type), then constant-value matches appended with `==`-deduplication. -/
def find_by_referenced_by_primary (primary : Resource) (required : RequiredResource)
    (resources : List Resource) (refMap : RefMap) (constMap : ConstMap) :
    List Resource :=
  let primaryAddress := primary.address
  let matches1 :=
    if ref_has_key refMap primaryAddress then
      (ref_lookup refMap primaryAddress).foldl
        (fun acc dep =>
          match by_address resources dep with
          | some r => if r.type = required.resource_type then acc ++ [r] else acc
          | none => acc)
        []
    else []
  match required.reference_property with
  | some prop =>
    if prop ≠ "" then
      let primaryIdentifier := get_resource_identifier primary
      (by_type resources required.resource_type).foldl
        (fun acc candidate =>
          match const_lookup constMap candidate.address with
          | some constants =>
            match lookupStr constants prop with
            | some refValue =>
              if pyTruthy refValue
                  && matches_identifier refValue primaryIdentifier primaryAddress
                  && !acc.any (resource_eq candidate) then
                acc ++ [candidate]
              else acc
            | none => acc
          | none => acc)
        matches1
    else matches1
  | none => matches1

/-- `CrossResourceEvaluator._find_by_references_primary`: resources of the
required type whose reference-map entry lists the primary as a
dependent. -/
def find_by_references_primary (primary : Resource) (required : RequiredResource)
    (resources : List Resource) (refMap : RefMap) : List Resource :=
  (by_type resources required.resource_type).filter fun candidate =>
    ref_has_key refMap candidate.address
      && (ref_lookup refMap candidate.address).contains primary.address

/-- `CrossResourceEvaluator._find_by_name_suffix`: resources of the
required type whose name equals the primary's (empty names match
nothing). -/
def find_by_name_suffix (primary : Resource) (required : RequiredResource)
    (resources : List Resource) : List Resource :=
  if primary.name = "" then []
  else (by_type resources required.resource_type).filter fun c =>
    c.name = primary.name

/-- `CrossResourceEvaluator._find_related_resources`: dispatch on the
relationship kind (unknown kinds find nothing). -/
def find_related_resources (primary : Resource) (required : RequiredResource)
    (resources : List Resource) (refMap : RefMap) (constMap : ConstMap) :
    List Resource :=
  if required.relationship = "referenced_by_primary" then
    find_by_referenced_by_primary primary required resources refMap constMap
  else if required.relationship = "references_primary" then
    find_by_references_primary primary required resources refMap
  else if required.relationship = "same_name_suffix" then
    find_by_name_suffix primary required resources
  else []

/-- `CrossResourceEvaluator._create_violation`: the rule's formatted
template, the detail message, and the optional `message_suffix`. -/
def create_violation (rule : Rule) (primary : Resource)
    (required : RequiredResource) (detailMessage : String) : Violation :=
  let baseMessage := format_message rule primary.address "terminal"
  let fullMessage :=
    match required.message_suffix with
    | some suffix => baseMessage ++ ": " ++ detailMessage ++ " " ++ suffix
    | none => baseMessage ++ ": " ++ detailMessage
  { rule_id := rule.id, rule_name := rule.name,
    resource_name := primary.address, resource_type := primary.type,
    severity := rule.severity, message := fullMessage }

/-- `CrossResourceEvaluator._validate_conditions`: one violation per
condition whose resolved value differs (Python `!=`, no coercion) from
the expected literal. -/
def validate_conditions (rule : Rule) (primary : Resource)
    (required : RequiredResource) (relatedResource : Resource) :
    List Violation :=
  match required.conditions with
  | none => []
  | some conds =>
    if conds.isEmpty then []
    else
      conds.foldl
        (fun acc (cond : String × Value) =>
          let actualValue := get_nested_property relatedResource.values cond.1
          if !pyEq actualValue cond.2 then
            acc ++ [create_violation rule primary required
              ("Related resource " ++ relatedResource.address
                ++ " fails condition: " ++ cond.1 ++ " is " ++ pyRepr actualValue
                ++ ", expected " ++ pyRepr cond.2)]
          else acc)
        []

/-- The `Missing required …` detail message. -/
def missing_message (required : RequiredResource) (found : Nat) : String :=
  "Missing required " ++ required.resource_type ++ " (found " ++ toString found
    ++ ", need " ++ toString required.min_count ++ ")"

/-- The `Too many …` detail message. -/
def too_many_message (required : RequiredResource) (found : Nat) (mx : Nat) : String :=
  "Too many " ++ required.resource_type ++ " (found " ++ toString found
    ++ ", max " ++ toString mx ++ ")"

/-- `CrossResourceEvaluator._check_required_resource`: a count below
`min_count` emits exactly one "missing" violation and returns immediately
(skipping the `max_count` and condition checks); otherwise the `max_count`
excess check and the per-related-resource condition checks run. -/
def check_required_resource (rule : Rule) (primary : Resource)
    (required : RequiredResource) (resources : List Resource)
    (refMap : RefMap) (constMap : ConstMap) : List Violation :=
  let relatedResources :=
    find_related_resources primary required resources refMap constMap
  if relatedResources.length < required.min_count then
    [create_violation rule primary required
      (missing_message required relatedResources.length)]
  else
    let violations :=
      match required.max_count with
      | some mx =>
        if mx < relatedResources.length then
          [create_violation rule primary required
            (too_many_message required relatedResources.length mx)]
        else []
      | none => []
    let violations :=
      if (match required.conditions with
          | some conds => !conds.isEmpty
          | none => false) then
        relatedResources.foldl
          (fun acc related =>
            acc ++ validate_conditions rule primary required related)
          violations
      else violations
    violations

/-- `CrossResourceEvaluator._get_primary_resources`. -/
def get_primary_resources (rule : Rule) (resources : List Resource) :
    List Resource :=
  if (rule.resource_type.getD "") ≠ "" then
    by_type resources (rule.resource_type.getD "")
  else
    match rule.resource_types with
    | some ts => ts.foldl (fun acc t => acc ++ by_type resources t) []
    | none => []

/-- `CrossResourceEvaluator.evaluate`: skip rules without
`requires_resources`; build the reference and constant maps from the plan
when one is given (Python truthiness: an empty plan dict builds nothing);
then check every required-resource spec against every primary. -/
def cross_evaluate (rule : Rule) (resources : List Resource)
    (planData : Option (List (String × Value))) : List Violation :=
  match rule.requires_resources with
  | none => []
  | some reqs =>
    if reqs.isEmpty then []
    else
      let refMap :=
        match planData with
        | some plan => if plan.isEmpty then [] else extract_resource_references plan
        | none => []
      let constMap :=
        match planData with
        | some plan => if plan.isEmpty then [] else extract_constant_values plan
        | none => []
      (get_primary_resources rule resources).foldl
        (fun acc primary =>
          reqs.foldl
            (fun acc2 required =>
              acc2 ++ check_required_resource rule primary required resources
                refMap constMap)
            acc)
        []

/-! ## Helper lemmas -/

/-- A path splitting into more than `MAX_PROPERTY_DEPTH` segments is
rejected by the shape validator. -/
theorem validate_property_path_depth (path : String)
    (h : MAX_PROPERTY_DEPTH < (splitOnDot path).length) :
    validate_property_path path = false := by
  unfold validate_property_path
  by_cases h0 : path = ""
  · simp [h0]
  · by_cases h1 : 1000 < path.length
    · simp [h0, h1]
    · simp [h0, h1, h]

/-- A path longer than 1000 characters is rejected by the shape
validator. -/
theorem validate_property_path_length (path : String)
    (h : 1000 < path.length) :
    validate_property_path path = false := by
  unfold validate_property_path
  by_cases h0 : path = ""
  · simp [h0]
  · simp [h0, h]

/-- A path with an empty segment is rejected by the shape validator. -/
theorem validate_property_path_empty_segment (path : String)
    (h : "" ∈ splitOnDot path) :
    validate_property_path path = false := by
  unfold validate_property_path
  by_cases h0 : path = ""
  · simp [h0]
  · by_cases h1 : 1000 < path.length
    · simp [h0, h1]
    · by_cases h2 : MAX_PROPERTY_DEPTH < (splitOnDot path).length
      · simp [h0, h1, h2]
      · rw [if_neg h0, if_neg h1]
        simp only [h2, ite_false, if_false]
        apply Bool.eq_false_iff.mpr
        intro hall
        rw [List.all_eq_true] at hall
        have hx := hall "" h
        simp at hx

/-! ## C8: the resolver is total and bounded -/

/-- C8.  For every root value and path string the Property Path Resolver
is total (it is a Lean function) and returns the absent result
(`Value.null`, Python `None`) in each bounded case: a sequence segment
that does not parse as an integer, parses negative, is at or beyond the
sequence's length, or is at or above `MAX_ARRAY_INDEX = 100`; and a path
with more than 20 dot-separated segments, longer than 1000 characters, or
containing an empty segment. -/
theorem claim8_resolver_bounds :
    (∀ (xs : List Value) (part : String) (rest : List String),
      pyInt part = none →
      get_nested_property_loop (.list xs) (part :: rest) = .null)
    ∧ (∀ (xs : List Value) (part : String) (rest : List String) (i : Int),
      pyInt part = some i → i < 0 →
      get_nested_property_loop (.list xs) (part :: rest) = .null)
    ∧ (∀ (xs : List Value) (part : String) (rest : List String) (i : Int),
      pyInt part = some i → (xs.length : Int) ≤ i →
      get_nested_property_loop (.list xs) (part :: rest) = .null)
    ∧ (∀ (xs : List Value) (part : String) (rest : List String) (i : Int),
      pyInt part = some i → MAX_ARRAY_INDEX ≤ i →
      get_nested_property_loop (.list xs) (part :: rest) = .null)
    ∧ (∀ (obj : List (String × Value)) (path : String),
      20 < (splitOnDot path).length → get_nested_property obj path = .null)
    ∧ (∀ (obj : List (String × Value)) (path : String),
      1000 < path.length → get_nested_property obj path = .null)
    ∧ (∀ (obj : List (String × Value)) (path : String),
      "" ∈ splitOnDot path → get_nested_property obj path = .null) := by
  refine ⟨?_, ?_, ?_, ?_, ?_, ?_, ?_⟩
  · intro xs part rest h
    unfold get_nested_property_loop
    simp [h]
  · intro xs part rest i h hneg
    unfold get_nested_property_loop
    simp only [h]
    rw [if_pos (Or.inl hneg)]
  · intro xs part rest i h hlen
    unfold get_nested_property_loop
    simp only [h]
    by_cases hor : i < 0 ∨ MAX_ARRAY_INDEX ≤ i
    · rw [if_pos hor]
    · rw [if_neg hor]
      push_neg at hor
      have h0 : 0 ≤ i := hor.1
      have : xs.length ≤ i.toNat := by
        have := Int.toNat_of_nonneg h0
        omega
      rw [dif_neg (Nat.not_lt.mpr this)]
  · intro xs part rest i h hmax
    unfold get_nested_property_loop
    simp only [h]
    rw [if_pos (Or.inr hmax)]
  · intro obj path h
    unfold get_nested_property
    have hv := validate_property_path_depth path (by simpa [MAX_PROPERTY_DEPTH] using h)
    by_cases h0 : obj.isEmpty || path = ""
    · rw [if_pos h0]
    · rw [if_neg h0, if_pos (by simp [hv])]
  · intro obj path h
    unfold get_nested_property
    have hv := validate_property_path_length path h
    by_cases h0 : obj.isEmpty || path = ""
    · rw [if_pos h0]
    · rw [if_neg h0, if_pos (by simp [hv])]
  · intro obj path h
    unfold get_nested_property
    have hv := validate_property_path_empty_segment path h
    by_cases h0 : obj.isEmpty || path = ""
    · rw [if_pos h0]
    · rw [if_neg h0, if_pos (by simp [hv])]

/-- A 21-segment path. -/
def c8_deep_path : String := joinDot (List.replicate 21 "a")

/-- A 1001-character path. -/
def c8_long_path : String := String.mk (List.replicate 1001 'a')

set_option maxRecDepth 100000 in
/-- Witness for C8: each bounded case evaluated at a concrete input. -/
theorem claim8_witness :
    (pyInt "x" = none
      ∧ get_nested_property_loop (.list [.int 5]) ["x"] = .null)
    ∧ (pyInt "-1" = some (-1)
      ∧ get_nested_property_loop (.list [.int 5]) ["-1"] = .null)
    ∧ (pyInt "1" = some 1
      ∧ get_nested_property_loop (.list [.int 5]) ["1"] = .null)
    ∧ (pyInt "150" = some 150
      ∧ get_nested_property_loop (.list (List.replicate 200 (.int 0))) ["150"] = .null)
    ∧ (20 < (splitOnDot c8_deep_path).length
      ∧ get_nested_property [("a", .int 1)] c8_deep_path = .null)
    ∧ (1000 < c8_long_path.length
      ∧ get_nested_property [("a", .int 1)] c8_long_path = .null)
    ∧ ("" ∈ splitOnDot "a..b"
      ∧ get_nested_property [("a", .int 1)] "a..b" = .null) :=
  ⟨⟨by decide, claim8_resolver_bounds.1 _ _ _ (by decide)⟩,
   ⟨by decide, claim8_resolver_bounds.2.1 _ _ _ (-1) (by decide) (by decide)⟩,
   ⟨by decide, claim8_resolver_bounds.2.2.1 _ _ _ 1 (by decide) (by decide)⟩,
   ⟨by decide, claim8_resolver_bounds.2.2.2.1 _ _ _ 150 (by decide) (by decide)⟩,
   ⟨by decide, claim8_resolver_bounds.2.2.2.2.1 _ _ (by decide)⟩,
   ⟨by decide, claim8_resolver_bounds.2.2.2.2.2.1 _ _ (by decide)⟩,
   ⟨by decide, claim8_resolver_bounds.2.2.2.2.2.2 _ _ (by decide)⟩⟩

/-! ## C4: a `min_count` failure short-circuits the remaining checks -/

/-- C4.  When fewer related resources are found than `min_count`, the
Cross-Resource Evaluator emits exactly the one "missing required
resource" violation naming the found and needed counts — and nothing
else: no condition violations and no `max_count` violation for that
spec. -/
theorem claim4_min_count_short_circuit (rule : Rule) (primary : Resource)
    (required : RequiredResource) (resources : List Resource)
    (refMap : RefMap) (constMap : ConstMap)
    (h : (find_related_resources primary required resources refMap constMap).length
      < required.min_count) :
    check_required_resource rule primary required resources refMap constMap =
      [create_violation rule primary required
        (missing_message required
          (find_related_resources primary required resources refMap constMap).length)]
    ∧ (check_required_resource rule primary required resources refMap constMap).length
      = 1 := by
  unfold check_required_resource
  simp [h]

/-- Concrete rule for the C4 witness. -/
def c4_required : RequiredResource :=
  { resource_type := "aws_s3_bucket_versioning", relationship := "same_name_suffix",
    min_count := 1 }

/-- Concrete rule for the C4 witness. -/
def c4_rule : Rule :=
  { id := "s3-versioning-required", name := "S3 versioning required",
    resource_type := some "aws_s3_bucket", severity := "error",
    requires_resources := some [c4_required],
    message := "Bucket \x7b\x7bresource_name\x7d\x7d needs versioning" }

/-- Concrete primary resource for the C4 witness. -/
def c4_primary : Resource :=
  { address := "aws_s3_bucket.b", type := "aws_s3_bucket", name := "b",
    values := [] }

/-- Witness for C4: `min_count = 1` with zero related resources. -/
theorem claim4_witness :
    (find_related_resources c4_primary c4_required [c4_primary] [] []).length
      < c4_required.min_count
    ∧ check_required_resource c4_rule c4_primary c4_required [c4_primary] [] [] =
        [create_violation c4_rule c4_primary c4_required
          (missing_message c4_required
            (find_related_resources c4_primary c4_required [c4_primary] [] []).length)]
    ∧ (check_required_resource c4_rule c4_primary c4_required [c4_primary] [] []).length
        = 1 :=
  ⟨by decide,
   (claim4_min_count_short_circuit c4_rule c4_primary c4_required [c4_primary] [] []
     (by decide)).1,
   (claim4_min_count_short_circuit c4_rule c4_primary c4_required [c4_primary] [] []
     (by decide)).2⟩

/-! ## C2: evaluation-time failures are total, not exceptional

Totality of the Single-Resource Evaluator holds by construction in this
embedding: every `try/except` of the source is a total `match` on an
`Option`.  The substantive content of the claim is that each failure mode
resolves to comparator-false and hence to a violation, proved below. -/

/-- C2.  A non-coercible operand under `greater_than`, a pattern that
fails to compile under `regex_match`, and a non-map actual under
`has_keys` each make the comparator return `false`; and whenever the
resolved property is absent, or the dispatched comparator fails, the
Single-Resource Evaluator produces a violation (never an error). -/
theorem claim2_total_failure_modes :
    (∀ (actual : Value) (g : Rat), pyFloat actual = none →
      check_greater_than actual g = false)
    ∧ (∀ (re : RegexOracle) (actual : Value) (pattern : String),
      re pattern = none → check_regex_match re actual pattern = false)
    ∧ (∀ (actual : Value) (ks : List String),
      (∀ kvs, actual ≠ Value.dict kvs) → check_has_keys actual ks = false)
    ∧ (∀ (re : RegexOracle) (rule : Rule) (r : Resource),
      rule.resource_forbidden ≠ some true →
      get_nested_property_opt r.values rule.property = .null →
      (check_resource re rule r).isSome = true)
    ∧ (∀ (re : RegexOracle) (rule : Rule) (r : Resource),
      rule.resource_forbidden ≠ some true →
      get_nested_property_opt r.values rule.property ≠ .null →
      (comparator_check re rule (get_nested_property_opt r.values rule.property)).1
        = false →
      (check_resource re rule r).isSome = true) := by
  refine ⟨?_, ?_, ?_, ?_, ?_⟩
  · intro actual g h
    simp [check_greater_than, check_numeric_comparison, h]
  · intro re actual pattern h
    simp [check_regex_match, h]
  · intro actual ks h
    cases actual with
    | dict kvs => exact absurd rfl (h kvs)
    | _ => simp [check_has_keys]
  · intro re rule r hforb hnull
    unfold check_resource
    rw [if_neg hforb]
    rw [hnull]
    simp
  · intro re rule r hforb hne hcomp
    unfold check_resource
    rw [if_neg hforb]
    cases hv : get_nested_property_opt r.values rule.property with
    | null => exact absurd hv hne
    | _ =>
      rw [hv] at hcomp
      simp [hcomp]

/-- Concrete rule for the C2 witness: `greater_than` over a non-numeric
actual. -/
def c2_rule : Rule :=
  { id := "retention-min", name := "Minimum retention",
    resource_type := some "aws_db_instance", severity := "warning",
    property := some "backup_retention_period", greater_than := some 7,
    message := "Retention too low" }

/-- Concrete resource for the C2 witness: the property is a non-numeric
string. -/
def c2_resource : Resource :=
  { address := "aws_db_instance.db", type := "aws_db_instance", name := "db",
    values := [("backup_retention_period", .str "not-a-number")] }

/-- Concrete resource for the C2 witness with the property absent. -/
def c2_resource_absent : Resource :=
  { address := "aws_db_instance.db2", type := "aws_db_instance", name := "db2",
    values := [("engine", .str "postgres")] }

/-- Witness for C2: each failure mode at a concrete input. -/
theorem claim2_witness :
    (pyFloat (.str "not-a-number") = none
      ∧ check_greater_than (.str "not-a-number") 7 = false)
    ∧ check_regex_match (fun _ => none) (.str "x") "(" = false
    ∧ check_has_keys (.str "x") ["Environment"] = false
    ∧ (get_nested_property_opt c2_resource_absent.values c2_rule.property = .null
      ∧ (check_resource (fun _ => none) c2_rule c2_resource_absent).isSome = true)
    ∧ ((comparator_check (fun _ => none) c2_rule
          (get_nested_property_opt c2_resource.values c2_rule.property)).1 = false
      ∧ (check_resource (fun _ => none) c2_rule c2_resource).isSome = true) :=
  ⟨⟨rfl, claim2_total_failure_modes.1 _ 7 rfl⟩,
   claim2_total_failure_modes.2.1 (fun _ => none) (.str "x") "(" rfl,
   claim2_total_failure_modes.2.2.1 (.str "x") ["Environment"]
     (fun kvs h => Value.noConfusion h),
   ⟨rfl,
    claim2_total_failure_modes.2.2.2.1 (fun _ => none) c2_rule c2_resource_absent
      (by decide) rfl⟩,
   ⟨rfl,
    claim2_total_failure_modes.2.2.2.2 (fun _ => none) c2_rule c2_resource
      (by decide) (fun h => Value.noConfusion h) rfl⟩⟩

/-! ## C5: the `resource_forbidden` exclusivity validator -/

/-- A `resource_forbidden` rule carrying `has_keys` — the claim says its
construction must fail. -/
def c5_forbidden_has_keys_rule : Rule :=
  { id := "no-direct-s3", name := "No direct S3",
    resource_type := some "aws_s3_bucket", severity := "error",
    resource_forbidden := some true, has_keys := some ["Environment"],
    message := "Use the module" }

/-- A `resource_forbidden` rule carrying `is_not_empty`. -/
def c5_forbidden_is_not_empty_rule : Rule :=
  { id := "no-direct-s3b", name := "No direct S3 b",
    resource_type := some "aws_s3_bucket", severity := "error",
    resource_forbidden := some true, is_not_empty := some true,
    message := "Use the module" }

/-- A `resource_forbidden` rule carrying a property. -/
def c5_forbidden_property_rule : Rule :=
  { id := "no-direct-s3c", name := "No direct S3 c",
    resource_type := some "aws_s3_bucket", severity := "error",
    resource_forbidden := some true, property := some "acl",
    message := "Use the module" }

/-- A `resource_forbidden` rule carrying `equals`. -/
def c5_forbidden_equals_rule : Rule :=
  { id := "no-direct-s3d", name := "No direct S3 d",
    resource_type := some "aws_s3_bucket", severity := "error",
    resource_forbidden := some true, equals := some (.bool true),
    message := "Use the module" }

/-- The required-resource spec carried by `c5_forbidden_requires_rule`. -/
def c5_requires_spec : RequiredResource :=
  { resource_type := "aws_s3_bucket_versioning",
    relationship := "same_name_suffix" }

/-- A `resource_forbidden` rule carrying `requires_resources`. -/
def c5_forbidden_requires_rule : Rule :=
  { id := "no-direct-s3e", name := "No direct S3 e",
    resource_type := some "aws_s3_bucket", severity := "error",
    resource_forbidden := some true,
    requires_resources := some [c5_requires_spec],
    message := "Use the module" }

/-- C5, evaluated at the failing inputs.  The claim is contradicted by
the code: `validate_comparison_operator`'s `resource_forbidden` branch
checks only eight of the ten comparators (its own comment says "All
comparison operators should be None", and the sibling pure-cross-resource
branch does check all ten), omitting `has_keys` and `is_not_empty` — so a
`resource_forbidden` rule carrying `has_keys` or `is_not_empty`
constructs successfully.  A property, any of the eight checked
comparators, or `requires_resources` does fail construction, as the claim
states. -/
theorem claim5_forbidden_operator_gap :
    rule_construct c5_forbidden_has_keys_rule = .ok c5_forbidden_has_keys_rule
    ∧ rule_construct c5_forbidden_is_not_empty_rule
        = .ok c5_forbidden_is_not_empty_rule
    ∧ rule_construct c5_forbidden_property_rule
        = .error "resource_forbidden rules should not specify a property"
    ∧ rule_construct c5_forbidden_equals_rule
        = .error "resource_forbidden rules should not specify comparison operators"
    ∧ rule_construct c5_forbidden_requires_rule
        = .error "resource_forbidden rules cannot specify requires_resources" :=
  ⟨rfl, rfl, rfl, rfl, rfl⟩

/-! ## C1: the absent sentinel is *not* distinct from a present null -/

/-- Concrete rule for C1: an `equals` check on property `acl`. -/
def c1_rule : Rule :=
  { id := "acl-private", name := "ACL must be private",
    resource_type := some "aws_s3_bucket", severity := "error",
    property := some "acl", equals := some (.str "private"),
    message := "bad acl" }

/-- Concrete resource for C1 whose `acl` value is a legitimately-present
null. -/
def c1_resource_null : Resource :=
  { address := "aws_s3_bucket.b", type := "aws_s3_bucket", name := "b",
    values := [("acl", .null)] }

/-- C1 counterexample.  The resolver returns Python `None` (`Value.null`)
both for a key bound to a present null and for an absent key — there is
no distinct "absent" sentinel — and the Single-Resource Evaluator treats
the present null as an absent property, emitting a "property not found"
violation instead of evaluating the comparator on a present value. -/
theorem claim1_counterexample :
    get_nested_property [("acl", Value.null)] "acl"
        = get_nested_property [("other", Value.int 1)] "acl"
    ∧ check_resource (fun _ => none) c1_rule c1_resource_null =
        some { rule_id := "acl-private", rule_name := "ACL must be private",
               resource_name := "aws_s3_bucket.b",
               resource_type := "aws_s3_bucket", severity := "error",
               message := "bad acl (property 'acl' not found)" } :=
  ⟨rfl, rfl⟩

/-- C1 as amended.  The resolver returns the same `Value.null` for an
absent key and for a key bound to a present null (no distinct sentinel),
and this single null result is what both evaluators consume: the
Single-Resource Evaluator turns any null resolution into a
"property not found" violation, and the Cross-Resource Evaluator compares
the null resolution against the expected literal with plain Python
equality. -/
theorem claim1_amended :
    (∀ (kvs : List (String × Value)) (k : String),
      kvs ≠ [] → validate_property_path k = true → splitOnDot k = [k] →
      (lookupStr kvs k = some .null ∨ lookupStr kvs k = none) →
      get_nested_property kvs k = .null)
    ∧ (∀ (re : RegexOracle) (rule : Rule) (r : Resource),
      rule.resource_forbidden ≠ some true →
      get_nested_property_opt r.values rule.property = .null →
      check_resource re rule r =
        some { rule_id := rule.id, rule_name := rule.name,
               resource_name := r.address, resource_type := r.type,
               severity := rule.severity,
               message := format_message rule r.address "terminal"
                 ++ " (property '" ++ rule.property.getD "None"
                 ++ "' not found)" })
    ∧ (∀ (rule : Rule) (primary : Resource) (required : RequiredResource)
        (related : Resource) (pp : String) (expected : Value),
      required.conditions = some [(pp, expected)] →
      validate_conditions rule primary required related =
        (if pyEq (get_nested_property related.values pp) expected then []
         else [create_violation rule primary required
           ("Related resource " ++ related.address ++ " fails condition: "
             ++ pp ++ " is " ++ pyRepr (get_nested_property related.values pp)
             ++ ", expected " ++ pyRepr expected)])) := by
  refine ⟨?_, ?_, ?_⟩
  · intro kvs k hkvs hval hsplit hlk
    unfold get_nested_property
    have hne : k ≠ "" := by
      intro h
      rw [h] at hval
      simp [validate_property_path] at hval
    rw [if_neg (by simp [hkvs, hne, List.isEmpty_iff])]
    rw [if_neg (by simp [hval])]
    rw [hsplit]
    rcases hlk with h | h <;>
      simp [get_nested_property_loop, h]
  · intro re rule r hforb hnull
    unfold check_resource
    rw [if_neg hforb]
    rw [hnull]
  · intro rule primary required related pp expected hconds
    unfold validate_conditions
    rw [hconds]
    by_cases hpe : pyEq (get_nested_property related.values pp) expected
    · simp [hpe]
    · simp only [Bool.not_eq_true] at hpe
      simp [hpe]

/-- Resource with one condition on `status` used by the C1 witness. -/
def c1_required : RequiredResource :=
  { resource_type := "aws_s3_bucket_versioning",
    relationship := "same_name_suffix",
    conditions := some [("status", .null)] }

/-- Witness for C1 (amended): each part applied at a concrete input. -/
theorem claim1_witness :
    get_nested_property [("acl", Value.null)] "acl" = .null
    ∧ check_resource (fun _ => none) c1_rule c1_resource_null =
        some { rule_id := c1_rule.id, rule_name := c1_rule.name,
               resource_name := c1_resource_null.address,
               resource_type := c1_resource_null.type,
               severity := c1_rule.severity,
               message := format_message c1_rule c1_resource_null.address "terminal"
                 ++ " (property '" ++ c1_rule.property.getD "None"
                 ++ "' not found)" }
    ∧ validate_conditions c1_rule c1_resource_null c1_required c1_resource_null =
        (if pyEq (get_nested_property c1_resource_null.values "status") Value.null
         then []
         else [create_violation c1_rule c1_resource_null c1_required
           ("Related resource " ++ c1_resource_null.address
             ++ " fails condition: status is "
             ++ pyRepr (get_nested_property c1_resource_null.values "status")
             ++ ", expected " ++ pyRepr Value.null)]) :=
  ⟨claim1_amended.1 [("acl", Value.null)] "acl" (List.cons_ne_nil _ _) (by decide)
     (by decide) (Or.inl rfl),
   claim1_amended.2.1 (fun _ => none) c1_rule c1_resource_null (by decide) rfl,
   claim1_amended.2.2 c1_rule c1_resource_null c1_required c1_resource_null
     "status" Value.null rfl⟩

/-! ## C6: constants are *not* extracted from list-valued expression
entries -/

/-- Plan whose only `constant_value` leaf sits inside a list-valued
(block-style) expression entry. -/
def c6_plan : List (String × Value) :=
  [("configuration", .dict [("root_module", .dict [("resources", .list
    [.dict [("address", .str "aws_s3_bucket.a"),
            ("expressions", .dict [("lifecycle_rule", .list
              [.dict [("status", .dict [("constant_value", .str "Enabled")])]])])]])])])]

/-- C6 counterexample.  A `constant_value` leaf inside a list-valued
expression entry is *not* recorded: `extract_constant_values` inspects
only the top-level expression entries and never descends into lists, so
the ConstantMap stays empty for this plan. -/
theorem claim6_counterexample :
    extract_constant_values c6_plan = []
    ∧ const_lookup (extract_constant_values c6_plan) "aws_s3_bucket.a" = none :=
  ⟨rfl, rfl⟩

/-- A plan identical in shape to `c6_plan` but with a `references` leaf in
place of the `constant_value` leaf. -/
def c6_ref_plan : List (String × Value) :=
  [("configuration", .dict [("root_module", .dict [("resources", .list
    [.dict [("address", .str "r.a"),
            ("expressions", .dict [("rule", .list
              [.dict [("target", .dict [("references", .list
                [.str "aws_s3_bucket.x.id"])])]])])]])])])]

/-- C6 as amended.  The constant extractor records exactly the top-level
expression entries that are objects carrying a `constant_value` leaf; it
does not descend into list-valued entries (every expressions dict with no
dict-valued entry contributes nothing).  The *reference* walk, by
contrast, does descend into list-valued entries, as the companion plan
`c6_ref_plan` shows. -/
theorem claim6_amended :
    (∀ (exprs : List (String × Value)) (k : String)
        (inner : List (String × Value)) (c : Value),
      (k, Value.dict inner) ∈ exprs → lookupStr inner "constant_value" = some c →
      (k, c) ∈ extract_constants_from_expressions exprs)
    ∧ (∀ exprs : List (String × Value),
      (∀ kv ∈ exprs, ∀ inner, kv.2 ≠ Value.dict inner) →
      extract_constants_from_expressions exprs = [])
    ∧ extract_resource_references c6_ref_plan = [("aws_s3_bucket.x", ["r.a"])] := by
  refine ⟨?_, ?_, rfl⟩
  · intro exprs k inner c hmem hlk
    unfold extract_constants_from_expressions
    refine List.mem_filterMap.mpr ⟨(k, Value.dict inner), hmem, ?_⟩
    simp [hlk]
  · intro exprs h
    unfold extract_constants_from_expressions
    rw [List.filterMap_eq_nil_iff]
    intro kv hkv
    cases hv : kv.2 with
    | dict inner => exact absurd hv (h kv hkv inner)
    | _ => simp

/-- Witness for C6 (amended): a top-level constant is recorded; an
all-list expressions dict records nothing. -/
theorem claim6_witness :
    ("bucket", Value.str "my-bucket")
      ∈ extract_constants_from_expressions
          [("bucket", .dict [("constant_value", .str "my-bucket")])]
    ∧ extract_constants_from_expressions
        [("lifecycle_rule", .list
          [.dict [("status", .dict [("constant_value", .str "Enabled")])]])] = [] :=
  ⟨claim6_amended.1 [("bucket", .dict [("constant_value", .str "my-bucket")])]
     "bucket" [("constant_value", .str "my-bucket")] (.str "my-bucket")
     (List.mem_singleton.mpr rfl) rfl,
   claim6_amended.2.1 _
     (by
       intro kv hkv inner
       simp only [List.mem_singleton] at hkv
       subst hkv
       intro hc
       exact Value.noConfusion hc)⟩

/-! ## C7: reference normalization and edge recording -/

/-- Unfolding equation of `ref_lookup` at a cons cell. -/
theorem ref_lookup_cons (a : String) (v : List String) (rest : RefMap)
    (k : String) :
    ref_lookup ((a, v) :: rest) k = if a = k then v else ref_lookup rest k := rfl

/-- Unfolding equation of `add_edge` at a cons cell. -/
theorem add_edge_cons (a : String) (v : List String) (rest : RefMap)
    (target dep : String) :
    add_edge ((a, v) :: rest) target dep =
      (if a = target then
        (if dep ∈ v then (a, v) :: rest else (a, v ++ [dep]) :: rest)
       else (a, v) :: add_edge rest target dep) := rfl

/-- Inserting an edge that is already recorded leaves the map unchanged —
the deduplication of `_extract_references_from_expressions`. -/
theorem add_edge_of_mem (m : RefMap) (target dep : String)
    (h : dep ∈ ref_lookup m target) : add_edge m target dep = m := by
  induction m with
  | nil => simp [ref_lookup] at h
  | cons kv rest ih =>
    obtain ⟨k, v⟩ := kv
    rw [ref_lookup_cons] at h
    rw [add_edge_cons]
    by_cases hk : k = target
    · rw [if_pos hk] at h ⊢
      rw [if_pos h]
    · rw [if_neg hk] at h ⊢
      rw [ih h]

/-- The inserted edge is present after `add_edge`. -/
theorem add_edge_mem (m : RefMap) (target dep : String) :
    dep ∈ ref_lookup (add_edge m target dep) target := by
  induction m with
  | nil => simp [add_edge, ref_lookup]
  | cons kv rest ih =>
    obtain ⟨k, v⟩ := kv
    rw [add_edge_cons]
    by_cases hk : k = target
    · rw [if_pos hk]
      by_cases hdep : dep ∈ v
      · rw [if_pos hdep, ref_lookup_cons, if_pos hk]
        exact hdep
      · rw [if_neg hdep, ref_lookup_cons, if_pos hk]
        simp
    · rw [if_neg hk, ref_lookup_cons, if_neg hk]
      exact ih

/-- `add_edge` preserves duplicate-freeness of every dependents list. -/
theorem add_edge_nodup (m : RefMap) (target dep k : String)
    (h : (ref_lookup m k).Nodup) :
    (ref_lookup (add_edge m target dep) k).Nodup := by
  induction m with
  | nil =>
    show (ref_lookup [(target, [dep])] k).Nodup
    rw [ref_lookup_cons]
    by_cases hk : target = k
    · rw [if_pos hk]; simp
    · rw [if_neg hk]; simp [ref_lookup]
  | cons kv rest ih =>
    obtain ⟨k', v⟩ := kv
    by_cases hk' : k' = target
    · by_cases hdep : dep ∈ v
      · rw [add_edge_cons, if_pos hk', if_pos hdep]
        exact h
      · rw [add_edge_cons, if_pos hk', if_neg hdep, ref_lookup_cons]
        rw [ref_lookup_cons] at h
        by_cases hkk : k' = k
        · rw [if_pos hkk] at h ⊢
          simp [List.nodup_append, h, hdep]
        · rw [if_neg hkk] at h ⊢
          exact h
    · rw [add_edge_cons, if_neg hk', ref_lookup_cons]
      rw [ref_lookup_cons] at h
      by_cases hkk : k' = k
      · rw [if_pos hkk] at h ⊢
        exact h
      · rw [if_neg hkk] at h ⊢
        exact ih h

/-- The Scenario C plan of the claim (as a `terraform show -json`
configuration). -/
def c7_plan : List (String × Value) :=
  [("configuration", .dict [("root_module", .dict [("resources", .list
    [.dict [("address", .str "aws_s3_bucket_versioning.x"),
            ("expressions", .dict [("bucket", .dict [("references", .list
              [.str "aws_s3_bucket.x.id"])])])]])])])]

/-- C7.  Reference strings of at least two dot-separated segments are
normalized to the first two segments (or the first four — i.e. all of
them when fewer than four exist — for `module.`-qualified references);
one edge from the normalized address to the dependent is recorded, the
insertion deduplicates, and Scenario C produces exactly
`ReferenceMap["aws_s3_bucket.x"] == ["aws_s3_bucket_versioning.x"]`. -/
theorem claim7_reference_extraction :
    (∀ ref : String, 2 ≤ (splitOnDot ref).length →
      extract_address_from_reference ref =
        (if (splitOnDot ref).headD "" = "module" then
          (if 4 ≤ (splitOnDot ref).length then joinDot ((splitOnDot ref).take 4)
           else ref)
         else joinDot ((splitOnDot ref).take 2)))
    ∧ (∀ (m : RefMap) (dep ref : String),
      extract_address_from_reference ref ≠ "" →
      dep ∈ ref_lookup (add_reference dep m (.str ref))
        (extract_address_from_reference ref))
    ∧ (∀ (m : RefMap) (target dep : String),
      dep ∈ ref_lookup m target → add_edge m target dep = m)
    ∧ (∀ (m : RefMap) (target dep k : String),
      (ref_lookup m k).Nodup → (ref_lookup (add_edge m target dep) k).Nodup)
    ∧ extract_resource_references c7_plan
        = [("aws_s3_bucket.x", ["aws_s3_bucket_versioning.x"])] := by
  refine ⟨?_, ?_, add_edge_of_mem, add_edge_nodup, rfl⟩
  · intro ref h
    unfold extract_address_from_reference
    by_cases href : ref = ""
    · subst href
      exact absurd h (by decide)
    · rw [if_neg href, if_neg (by omega)]
  · intro m dep ref htarget
    simp only [add_reference]
    rw [if_pos htarget]
    exact add_edge_mem m _ dep

/-- Witness for C7: normalization and recording at concrete references. -/
theorem claim7_witness :
    extract_address_from_reference "aws_s3_bucket.example.id"
      = joinDot ((splitOnDot "aws_s3_bucket.example.id").take 2)
    ∧ "aws_s3_bucket_versioning.x"
        ∈ ref_lookup
            (add_reference "aws_s3_bucket_versioning.x" [] (.str "aws_s3_bucket.x.id"))
            (extract_address_from_reference "aws_s3_bucket.x.id")
    ∧ add_edge [("aws_s3_bucket.x", ["aws_s3_bucket_versioning.x"])]
        "aws_s3_bucket.x" "aws_s3_bucket_versioning.x"
        = [("aws_s3_bucket.x", ["aws_s3_bucket_versioning.x"])]
    ∧ (ref_lookup (add_edge [] "aws_s3_bucket.x" "aws_s3_bucket_versioning.x")
        "aws_s3_bucket.x").Nodup := by
  refine ⟨?_, ?_, ?_, ?_⟩
  · have := claim7_reference_extraction.1 "aws_s3_bucket.example.id" (by decide)
    rw [this]
    decide
  · exact claim7_reference_extraction.2.1 [] "aws_s3_bucket_versioning.x"
      "aws_s3_bucket.x.id" (by decide)
  · exact claim7_reference_extraction.2.2.1 _ _ _ (by decide)
  · exact claim7_reference_extraction.2.2.2.1 [] "aws_s3_bucket.x"
      "aws_s3_bucket_versioning.x" "aws_s3_bucket.x" (by decide)

/-! ## C9: the `equals` coercion table -/

/-- The spec's reading of "numeric": an `int` or `float` value, as
distinct from the boolean clause of the claim (in Python, `bool` is a
subtype of `int`, which is what `asNum?` captures instead). -/
def strictNum? : Value → Option Rat
  | .int n => some (n : Rat)
  | .float q => some q
  | _ => none

/-- Modelled from the spec's words for C9: passes exactly on direct
equality, or a boolean against a string of the coercion table, or a
numeric (`int`/`float`) value against a numeric string whose float parse
equals it. -/
def equals_spec (actual expected : Value) : Bool :=
  pyEq actual expected
    || equals_bool_str_expected actual expected
    || equals_bool_str_actual actual expected
    || equals_numeric_str strictNum? actual expected

/-- C9 as amended: the numeric↔numeric-string clause also applies when
the numeric side is a boolean (coerced through its numeric value 1/0),
because Python's `isinstance(x, (int, float))` is true for booleans. -/
def equals_spec_amended (actual expected : Value) : Bool :=
  pyEq actual expected
    || equals_bool_str_expected actual expected
    || equals_bool_str_actual actual expected
    || equals_numeric_str asNum? actual expected

/-- C9 counterexample.  `_check_equals("1.0", True)` returns `True`: the
string `"1.0"` is not in the boolean coercion table, but the numeric
branch fires because `isinstance(True, (int, float))` holds in Python and
`float("1.0") == float(True)`.  The claim, which restricts the numeric
clause to numeric values as distinct from booleans, says this pair
fails. -/
theorem claim9_counterexample :
    check_equals (.str "1.0") (.bool true) = true
    ∧ equals_spec (.str "1.0") (.bool true) = false :=
  ⟨by decide, by decide⟩

/-- C9 as amended, proved: `_check_equals` passes exactly when the values
are directly equal, or one is a boolean and the other a string of the
coercion table, or one is numeric *or boolean* and the other a string
whose float parse equals its numeric value. -/
theorem claim9_amended (actual expected : Value) :
    check_equals actual expected = equals_spec_amended actual expected := by
  unfold check_equals equals_spec_amended
  by_cases h1 : pyEq actual expected <;>
    by_cases h2 : equals_bool_str_expected actual expected <;>
      by_cases h3 : equals_bool_str_actual actual expected <;>
        simp [h1, h2, h3]

/-! ## C3: one violation per failing matching resource -/

/-- The accumulation loop of `evaluate` is the `filterMap` of the
per-resource check, in input order. -/
theorem evaluate_loop_eq_filterMap (re : RegexOracle) (rule : Rule) :
    ∀ l : List Resource,
      evaluate_loop re rule l = l.filterMap (check_resource re rule) := by
  intro l
  induction l with
  | nil => rfl
  | cons r rest ih =>
    rw [evaluate_loop, List.filterMap_cons]
    cases check_resource re rule r <;> simp [ih]

/-- A `filterMap` keeps exactly the inputs whose image is `some`. -/
theorem length_filterMap_eq_length_filter {α β : Type} (f : α → Option β) :
    ∀ l : List α, (l.filterMap f).length = (l.filter fun x => (f x).isSome).length := by
  intro l
  induction l with
  | nil => rfl
  | cons x rest ih =>
    rw [List.filterMap_cons, List.filter_cons]
    cases h : f x <;> simp [h, ih]

/-- C3.  For a property-carrying rule, `evaluate` yields exactly the
violations of the matching resources whose check fails — one per failing
resource, in order, none for passing resources — so at most one per
matching resource; for resources whose property resolves to a present
value, failing is exactly the dispatched comparator returning false; and
evaluation is deterministic (definitionally so: the embedding is a pure
function of its inputs). -/
theorem claim3_violation_counts (re : RegexOracle) (rule : Rule)
    (resources : List Resource) (p : String) (hp : rule.property = some p) :
    evaluate re rule resources
      = (matching_resources rule resources).filterMap (check_resource re rule)
    ∧ (evaluate re rule resources).length
      = ((matching_resources rule resources).filter
          (fun r => (check_resource re rule r).isSome)).length
    ∧ (evaluate re rule resources).length
       ≤ (matching_resources rule resources).length
    ∧ (∀ r : Resource, rule.resource_forbidden ≠ some true →
        get_nested_property_opt r.values rule.property ≠ .null →
        ((check_resource re rule r).isSome ↔
          (comparator_check re rule
            (get_nested_property_opt r.values rule.property)).1 = false))
    ∧ evaluate re rule resources = evaluate re rule resources := by
  have heval : evaluate re rule resources
      = evaluate_loop re rule (matching_resources rule resources) := by
    unfold evaluate
    simp [hp]
  refine ⟨?_, ?_, ?_, ?_, rfl⟩
  · rw [heval, evaluate_loop_eq_filterMap]
  · rw [heval, evaluate_loop_eq_filterMap, length_filterMap_eq_length_filter]
  · rw [heval, evaluate_loop_eq_filterMap]
    calc ((matching_resources rule resources).filterMap
            (check_resource re rule)).length
        = ((matching_resources rule resources).filter
            (fun r => (check_resource re rule r).isSome)).length :=
          length_filterMap_eq_length_filter _ _
      _ ≤ (matching_resources rule resources).length :=
          List.length_filter_le _ _
  · intro r hforb hne
    unfold check_resource
    rw [if_neg hforb]
    cases hv : get_nested_property_opt r.values rule.property
    case null => exact absurd hv hne
    all_goals
      simp only []
      split <;> simp_all

/-- Concrete rule for the C3 witness. -/
def c3_rule : Rule :=
  { id := "acl-private", name := "ACL private",
    resource_type := some "aws_s3_bucket", severity := "error",
    property := some "acl", equals := some (.str "private"),
    message := "ACL of \x7b\x7bresource_name\x7d\x7d must be private" }

/-- A matching resource that passes the comparator. -/
def c3_pass : Resource :=
  { address := "aws_s3_bucket.ok", type := "aws_s3_bucket", name := "ok",
    values := [("acl", .str "private")] }

/-- A matching resource that fails the comparator. -/
def c3_fail : Resource :=
  { address := "aws_s3_bucket.bad", type := "aws_s3_bucket", name := "bad",
    values := [("acl", .str "public-read")] }

/-- A resource of another type, not matched by the rule. -/
def c3_other : Resource :=
  { address := "aws_db_instance.db", type := "aws_db_instance", name := "db",
    values := [("acl", .str "public-read")] }

/-- Witness for C3: the count facts at a concrete three-resource input. -/
theorem claim3_witness :
    evaluate (fun _ => none) c3_rule [c3_pass, c3_fail, c3_other]
      = (matching_resources c3_rule [c3_pass, c3_fail, c3_other]).filterMap
          (check_resource (fun _ => none) c3_rule)
    ∧ (evaluate (fun _ => none) c3_rule [c3_pass, c3_fail, c3_other]).length
      = ((matching_resources c3_rule [c3_pass, c3_fail, c3_other]).filter
          (fun r => (check_resource (fun _ => none) c3_rule r).isSome)).length
    ∧ (evaluate (fun _ => none) c3_rule [c3_pass, c3_fail, c3_other]).length
       ≤ (matching_resources c3_rule [c3_pass, c3_fail, c3_other]).length
    ∧ ((check_resource (fun _ => none) c3_rule c3_fail).isSome ↔
        (comparator_check (fun _ => none) c3_rule
          (get_nested_property_opt c3_fail.values c3_rule.property)).1 = false) :=
  have h := claim3_violation_counts (fun _ => none) c3_rule
    [c3_pass, c3_fail, c3_other] "acl" rfl
  ⟨h.1, h.2.1, h.2.2.1,
   h.2.2.2.1 c3_fail (by decide) (fun hx => Value.noConfusion hx)⟩

/-! ## C10: the boolean carried by `is_not_empty` is never consulted -/

/-- The comparator dispatch reads only *whether* `is_not_empty` is set,
never its boolean value. -/
theorem comparator_check_is_not_empty_flag (re : RegexOracle) (rule : Rule)
    (actual : Value) (b b' : Bool) :
    comparator_check re { rule with is_not_empty := some b } actual
      = comparator_check re { rule with is_not_empty := some b' } actual := by
  obtain ⟨i, n, rt, rts, sev, prop, rf, eq, gt, ge, lt_, le_, co, il, rm, hk,
    ine, rr, msg⟩ := rule
  cases eq <;> cases gt <;> cases ge <;> cases lt_ <;> cases le_ <;> cases co
    <;> cases il <;> cases rm <;> cases hk <;> rfl

/-- Per-resource checking reads only whether `is_not_empty` is set. -/
theorem check_resource_is_not_empty_flag (re : RegexOracle) (rule : Rule)
    (r : Resource) (b b' : Bool) :
    check_resource re { rule with is_not_empty := some b } r
      = check_resource re { rule with is_not_empty := some b' } r := by
  obtain ⟨i, n, rt, rts, sev, prop, rf, eq, gt, ge, lt_, le_, co, il, rm, hk,
    ine, rr, msg⟩ := rule
  unfold check_resource format_message
  simp only []
  rw [comparator_check_is_not_empty_flag re
    ⟨i, n, rt, rts, sev, prop, rf, eq, gt, ge, lt_, le_, co, il, rm, hk,
      ine, rr, msg⟩ (get_nested_property_opt r.values prop) b b']

/-- Whole-rule evaluation reads only whether `is_not_empty` is set. -/
theorem evaluate_loop_is_not_empty_flag (re : RegexOracle) (rule : Rule)
    (b b' : Bool) :
    ∀ l : List Resource,
      evaluate_loop re { rule with is_not_empty := some b } l
        = evaluate_loop re { rule with is_not_empty := some b' } l := by
  intro l
  induction l with
  | nil => rfl
  | cons r rest ih =>
    rw [evaluate_loop, evaluate_loop,
      check_resource_is_not_empty_flag re rule r b b', ih]

/-- Concrete rule with `is_not_empty := false` for the C10 witness. -/
def c10_rule : Rule :=
  { id := "tags-nonempty", name := "Tags must be set",
    resource_type := some "aws_s3_bucket", severity := "warning",
    property := some "tags", is_not_empty := some false,
    message := "Tags missing on \x7b\x7bresource_name\x7d\x7d" }

/-- C10.  A rule with `is_not_empty := false` is accepted by validation,
and the Single-Resource Evaluator's result does not depend on the flag's
boolean value: evaluation with `is_not_empty := b` equals evaluation with
`is_not_empty := b'` for any booleans, and (when no earlier comparator
field is set) the dispatched check is `check_is_not_empty` — non-null
and, for values with a length, nonzero length — regardless of the flag. -/
theorem claim10_is_not_empty_flag_irrelevant :
    (∀ (re : RegexOracle) (rule : Rule) (resources : List Resource) (b b' : Bool),
      evaluate re { rule with is_not_empty := some b } resources
        = evaluate re { rule with is_not_empty := some b' } resources)
    ∧ rule_construct c10_rule = .ok c10_rule
    ∧ (∀ (re : RegexOracle) (rule : Rule) (actual : Value) (b : Bool),
      rule.equals = none → rule.greater_than = none →
      rule.greater_than_or_equal = none → rule.less_than = none →
      rule.less_than_or_equal = none → rule.contains = none →
      rule.in_list = none → rule.regex_match = none → rule.has_keys = none →
      (comparator_check re { rule with is_not_empty := some b } actual).1
        = check_is_not_empty actual) := by
  refine ⟨?_, rfl, ?_⟩
  · intro re rule resources b b'
    obtain ⟨i, n, rt, rts, sev, prop, rf, eq, gt, ge, lt_, le_, co, il, rm, hk,
      ine, rr, msg⟩ := rule
    unfold evaluate matching_resources
    simp only []
    rw [evaluate_loop_is_not_empty_flag re
      ⟨i, n, rt, rts, sev, prop, rf, eq, gt, ge, lt_, le_, co, il, rm, hk,
        ine, rr, msg⟩ b b']
  · intro re rule actual b h1 h2 h3 h4 h5 h6 h7 h8 h9
    obtain ⟨i, n, rt, rts, sev, prop, rf, eq, gt, ge, lt_, le_, co, il, rm, hk,
      ine, rr, msg⟩ := rule
    simp only at h1 h2 h3 h4 h5 h6 h7 h8 h9
    subst h1 h2 h3 h4 h5 h6 h7 h8 h9
    rfl

/-- Witness for C10: flag irrelevance at the concrete rule and a
one-resource input. -/
theorem claim10_witness :
    evaluate (fun _ => none) { c10_rule with is_not_empty := some true }
        [c3_fail]
      = evaluate (fun _ => none) { c10_rule with is_not_empty := some false }
        [c3_fail]
    ∧ (comparator_check (fun _ => none)
        { c10_rule with is_not_empty := some false } (.list [])).1
      = check_is_not_empty (.list []) :=
  ⟨claim10_is_not_empty_flag_irrelevant.1 (fun _ => none) c10_rule [c3_fail]
     true false,
   claim10_is_not_empty_flag_irrelevant.2.2 (fun _ => none) c10_rule (.list [])
     false rfl rfl rfl rfl rfl rfl rfl rfl rfl⟩

end Berm
